import Mathlib

/-
Verification of the retry/credential orchestration layer of the Swarms API
client (api_call.py).  The client is embedded shallowly: the remote service is
a scripted oracle (one `ServiceEvent` per outgoing request), mutable client
fields become an explicit `ClientState`, Python exceptions become an
`ApiError` inductive threaded through `PyResult`/`Except`, and `time.sleep(5)`
calls are recorded in a `delays` trace.
-/

set_option maxRecDepth 8192

namespace SwarmsApi

/-- A parsed JSON object body, modelled as an association list of string
fields (the client only ever reads string-valued fields). -/
abbrev Body := List (String × String)

/-- Field lookup on a parsed body; models Python dict `.get` (first binding
wins). -/
def lookupField (b : Body) (k : String) : Option String :=
  match b with
  | [] => none
  | (k2, v) :: rest => if k2 = k then some v else lookupField rest k

/-- An HTTP response as the client observes it: status code, raw text
(empty string models falsy `response.content`), and the JSON parse result
(`none` models a `json.JSONDecodeError`). -/
structure HttpResponse where
  status_code : Nat
  content : String
  jsonBody : Option Body
deriving Repr, DecidableEq

/-- The exceptions the client can raise, by identity (messages abstracted to
constructors; `transport` stands for an arbitrary exception out of
`requests.post`). -/
inductive ApiError where
  | transport (msg : String)
  | emptyResponse (op : String)
  | invalidJson (op : String)
  | noApiKey
  | keyInvalidAfterAttempts
  | noAgentId
  | agentNotFound (agentId : String)
  | failedCreateUser (cause : ApiError)
  | failedCreateApiKey (cause : ApiError)
deriving Repr, DecidableEq

/-- One scripted behaviour of the remote service for a single request:
either `requests.post` throws, or it yields a response. -/
inductive ServiceEvent where
  | raiseEv (e : ApiError)
  | respond (r : HttpResponse)
deriving Repr, DecidableEq

/-- Outcome of a Python call: a raised exception or a returned value. -/
inductive PyResult (α : Type) where
  | raised (e : ApiError)
  | returned (v : α)
deriving Repr, DecidableEq

/-- The mutable fields of SwarmsAPIClient relevant to the retry layer
(`api_key`, `user_id`); `none` models Python `None`. -/
structure ClientState where
  api_key : Option String
  user_id : Option String
deriving Repr, DecidableEq

/-- Python truthiness of an optional string: `None` and `""` are falsy
(the `if not self.api_key` guards). -/
def truthy : Option String → Bool
  | none => false
  | some s => !(s == "")

/-- SwarmsAPIClient._handle_response: 204 yields an empty dict, an empty body
raises, a JSON decode failure raises, otherwise the parsed body is
returned. The status code is otherwise not inspected. -/
def handle_response (r : HttpResponse) (op : String) : Except ApiError Body :=
  if r.status_code == 204 then .ok []
  else if r.content == "" then .error (.emptyResponse op)
  else
    match r.jsonBody with
    | some b => .ok b
    | none => .error (.invalidJson op)

/-- SwarmsAPIClient.create_user: posts once; any exception is wrapped as
"Failed to create user"; on success the stored api_key and user_id are
overwritten with the response body fields (absent fields store `None`). -/
def create_user (ev : ServiceEvent) (s : ClientState) :
    Except ApiError Body × ClientState :=
  match ev with
  | .raiseEv e => (.error (.failedCreateUser e), s)
  | .respond r =>
    match handle_response r "User creation" with
    | .error e => (.error (.failedCreateUser e), s)
    | .ok body =>
      (.ok body,
       { api_key := lookupField body "api_key",
         user_id := lookupField body "user_id" })

/-- Result of create_api_key: the outcome plus the api-key header value of
each request actually sent (`none` when the stored key is Python `None`). -/
structure KeyOut where
  result : Except ApiError Body
  sentHeaders : List (Option String)
deriving Repr

/-- SwarmsAPIClient.create_api_key: builds headers from the stored api_key
(no precondition check in the code), posts once, wraps any exception as
"Failed to create API key". -/
def create_api_key (ev : ServiceEvent) (s : ClientState) : KeyOut :=
  match ev with
  | .raiseEv e => ⟨.error (.failedCreateApiKey e), [s.api_key]⟩
  | .respond r =>
    match handle_response r "API key creation" with
    | .error e => ⟨.error (.failedCreateApiKey e), [s.api_key]⟩
    | .ok body => ⟨.ok body, [s.api_key]⟩

/-- Result of create_agent: outcome (`returned none` is Python falling off
the loop and returning None), final client state, the api-key header of each
agent-creation request sent, and how many create_user calls were issued. -/
structure AgentOut where
  result : PyResult (Option Body)
  state : ClientState
  sent : List String
  userCalls : Nat
deriving Repr

/-- What one iteration of the create_agent try-block does: return the body,
continue the loop, or raise into the attempt-level except handler. -/
inductive TryOut where
  | success (b : Body) (s : ClientState) (uc : Nat)
  | continueLoop (s : ClientState) (uc : Nat)
  | exc (e : ApiError) (s : ClientState) (uc : Nat)
deriving Repr, DecidableEq

/-- The body of the try-block of one create_agent attempt (api_call.py lines
139-154): parse the response; a body with agent_id is returned; otherwise a
401 with attempts remaining re-provisions via create_user and continues,
a 401 on the last attempt raises the exhausted error, and any other body
without agent_id raises the malformed-response error.  `uScript` scripts the
nested create_user calls, indexed by how many have been issued. -/
def agentTry (ev : ServiceEvent) (attempt : Nat) (uScript : Nat → ServiceEvent)
    (uc : Nat) (s : ClientState) : TryOut :=
  match ev with
  | .raiseEv e => .exc e s uc
  | .respond r =>
    match handle_response r "Agent creation" with
    | .error e => .exc e s uc
    | .ok body =>
      if (lookupField body "agent_id").isSome then .success body s uc
      else if r.status_code == 401 then
        if attempt < 2 then
          match create_user (uScript uc) s with
          | (.error e, s2) => .exc e s2 (uc + 1)
          | (.ok _, s2) => .continueLoop s2 (uc + 1)
        else .exc .keyInvalidAfterAttempts s uc
      else .exc .noAgentId s uc

/-- The create_agent retry loop over the remaining attempt indices.  Each
iteration first checks the stored credential (outside the try-block, so this
exception always propagates), sends one request, and runs the attempt-level
except handler: an exception on attempt index 2 (== max_attempts - 1) is
re-raised, otherwise it is swallowed and the loop proceeds. -/
def create_agent_go (aScript uScript : Nat → ServiceEvent) :
    List Nat → Nat → ClientState → AgentOut
  | [], uc, s => ⟨.returned none, s, [], uc⟩
  | attempt :: rest, uc, s =>
    if truthy s.api_key then
      let hdr := (s.api_key.getD "").trim
      match agentTry (aScript attempt) attempt uScript uc s with
      | .success b s2 uc2 => ⟨.returned (some b), s2, [hdr], uc2⟩
      | .continueLoop s2 uc2 =>
        let out := create_agent_go aScript uScript rest uc2 s2
        ⟨out.result, out.state, hdr :: out.sent, out.userCalls⟩
      | .exc e s2 uc2 =>
        if attempt == 2 then ⟨.raised e, s2, [hdr], uc2⟩
        else
          let out := create_agent_go aScript uScript rest uc2 s2
          ⟨out.result, out.state, hdr :: out.sent, out.userCalls⟩
    else ⟨.raised .noApiKey, s, [], uc⟩

/-- SwarmsAPIClient.create_agent: max_attempts = 3, attempt indices 0, 1, 2.
`aScript` scripts the service behaviour of the agent-creation requests by
attempt index; `uScript` scripts the nested create_user calls. -/
def create_agent (aScript uScript : Nat → ServiceEvent) (s : ClientState) :
    AgentOut :=
  create_agent_go aScript uScript [0, 1, 2] 0 s

/-- Result of generate_completion: outcome, the api-key header of each
completion request sent, and the length of each sleep performed between
attempts. -/
structure GenOut where
  result : PyResult (Option Body)
  sent : List String
  delays : List Nat
deriving Repr

/-- The 404-during-completion signature matched against the detail field. -/
def notFoundSig : String := "Error processing completion: 404"

/-- Python str.startswith, evaluated on the underlying character lists. -/
def pyStartsWith (s pre : String) : Bool := pre.data.isPrefixOf s.data

/-- The generate_completion retry loop over the remaining attempt indices
(api_call.py lines 180-198).  A body whose detail field starts with the 404
signature sleeps 5 and retries, unless on the last attempt, where the
agent-not-found error is raised; any other parsed body is returned as-is.
Any exception on the last attempt (index == max_retries - 1) is re-raised,
otherwise the loop sleeps 5 and retries. -/
def generate_completion_go (script : Nat → ServiceEvent)
    (api_key agent_id : String) (mr : Int) : List Nat → GenOut
  | [] => ⟨.returned none, [], []⟩
  | attempt :: rest =>
    match script attempt with
    | .raiseEv e =>
      if (attempt : Int) == mr - 1 then ⟨.raised e, [api_key.trim], []⟩
      else
        let out := generate_completion_go script api_key agent_id mr rest
        ⟨out.result, api_key.trim :: out.sent, 5 :: out.delays⟩
    | .respond r =>
      match handle_response r "Completion generation" with
      | .error e =>
        if (attempt : Int) == mr - 1 then ⟨.raised e, [api_key.trim], []⟩
        else
          let out := generate_completion_go script api_key agent_id mr rest
          ⟨out.result, api_key.trim :: out.sent, 5 :: out.delays⟩
      | .ok body =>
        if pyStartsWith ((lookupField body "detail").getD "") notFoundSig then
          if (attempt : Int) < mr - 1 then
            let out := generate_completion_go script api_key agent_id mr rest
            ⟨out.result, api_key.trim :: out.sent, 5 :: out.delays⟩
          else if (attempt : Int) == mr - 1 then
            ⟨.raised (.agentNotFound agent_id), [api_key.trim], []⟩
          else
            let out := generate_completion_go script api_key agent_id mr rest
            ⟨out.result, api_key.trim :: out.sent, 5 :: out.delays⟩
        else ⟨.returned (some body), [api_key.trim], []⟩

/-- SwarmsAPIClient.generate_completion: checks the stored credential first
(raising the no-credential error), then runs the retry loop over attempt
indices range(max_retries); a non-positive max_retries yields an empty loop
and Python implicitly returns None. -/
def generate_completion (s : ClientState) (script : Nat → ServiceEvent)
    (api_key agent_id prompt : String) (mr : Int) : GenOut :=
  if truthy s.api_key then
    generate_completion_go script api_key agent_id mr (List.range mr.toNat)
  else ⟨.raised .noApiKey, [], []⟩

/-! Concrete scripted service behaviours used by the scenario theorems. -/

/-- A 401 response whose parsed body lacks an agent_id. -/
def unauthorizedEv : ServiceEvent :=
  .respond ⟨401, "body", some [("detail", "Unauthorized")]⟩

/-- A 200 agent-creation response whose body carries an agent_id. -/
def agentOkEv : ServiceEvent :=
  .respond ⟨200, "body", some [("agent_id", "agent-123")]⟩

/-- A 401 response whose parsed body nevertheless contains an agent_id. -/
def agent401Ev : ServiceEvent :=
  .respond ⟨401, "body", some [("agent_id", "agent-401")]⟩

/-- A successful create_user response installing the given credentials. -/
def userOkEv (k u : String) : ServiceEvent :=
  .respond ⟨200, "body", some [("api_key", k), ("user_id", u)]⟩

/-- Agent-creation script [unauthorized, unauthorized, success]. -/
def uuSuccessScript : Nat → ServiceEvent :=
  fun i => if i < 2 then unauthorizedEv else agentOkEv

/-- Agent-creation script [unauthorized, unauthorized, unauthorized]. -/
def uuuScript : Nat → ServiceEvent := fun _ => unauthorizedEv

/-- create_user script: every re-provision succeeds and installs fresh
non-empty credentials. -/
def freshUserScript : Nat → ServiceEvent :=
  fun _ => userOkEv "fresh-key" "fresh-uid"

/-- A 200 completion response carrying the 404-not-found detail signature. -/
def notFoundEv : ServiceEvent :=
  .respond ⟨200, "body",
    some [("detail", "Error processing completion: 404: Agent not found")]⟩

/-- A successful completion response. -/
def completionOkEv : ServiceEvent :=
  .respond ⟨200, "body", some [("response", "Paris")]⟩

/-- A completion response whose response field is the "None" sentinel. -/
def noneSentinelEv : ServiceEvent :=
  .respond ⟨200, "body", some [("response", "None")]⟩

/-- Completion script [not-found, not-found, success]. -/
def nnSuccessScript : Nat → ServiceEvent :=
  fun i => if i < 2 then notFoundEv else completionOkEv

/-- Completion script: every attempt carries the not-found signature. -/
def nnnScript : Nat → ServiceEvent := fun _ => notFoundEv

/-- Completion script [not-found, not-found, none-sentinel]. -/
def nnNoneScript : Nat → ServiceEvent :=
  fun i => if i < 2 then notFoundEv else noneSentinelEv

/-- A 200 response with a parseable body that lacks an agent_id (the
malformed-success class). -/
def malformedEv : ServiceEvent :=
  .respond ⟨200, "body", some [("detail", "Internal error")]⟩

/-- Agent-creation script [malformed, success, success]. -/
def malformedThenOkScript : Nat → ServiceEvent :=
  fun i => if i == 0 then malformedEv else agentOkEv

/-- A successful api-key creation response. -/
def keyOkEv : ServiceEvent :=
  .respond ⟨200, "body", some [("key", "fresh-key")]⟩

/-- A 400 response with a parseable JSON body. -/
def badStatusJsonEv : ServiceEvent :=
  .respond ⟨400, "body", some [("api_key", "bad-key"), ("user_id", "bad-uid")]⟩

/-- Script raising transport-level exceptions e0, e1, e2 on attempts
0, 1, 2. -/
def raiseScript (e0 e1 e2 : ApiError) : Nat → ServiceEvent :=
  fun i => if i == 0 then .raiseEv e0
    else if i == 1 then .raiseEv e1 else .raiseEv e2

/-- A concrete client state holding a non-empty credential. -/
def s0 : ClientState := ⟨some "initial-key", some "uid-0"⟩

/-- A client state with no credential at all. -/
def noKeyState : ClientState := ⟨none, none⟩

/-- A scripted event yielding a well-formed (parseable) response that lacks
an agent identifier and whose status is not 401: the class the spec calls a
malformed success response. -/
def IsMalformedAttempt (ev : ServiceEvent) : Prop :=
  ∃ r b, ev = .respond r ∧ handle_response r "Agent creation" = .ok b ∧
    lookupField b "agent_id" = none ∧ r.status_code ≠ 401

/-- The exception the single create_user attempt raises before wrapping, if
any: the transport exception itself, or the failure out of
handle_response. -/
def userAttemptCause : ServiceEvent → Option ApiError
  | .raiseEv e => some e
  | .respond r =>
    match handle_response r "User creation" with
    | .error e => some e
    | .ok _ => none

/-! Theorems. -/

/-- The retry loop sends at most one agent-creation request per remaining
attempt index. -/
theorem create_agent_go_sent_length_le (aScript uScript : Nat → ServiceEvent) :
    ∀ (l : List Nat) (uc : Nat) (s : ClientState),
      (create_agent_go aScript uScript l uc s).sent.length ≤ l.length := by
  intro l
  induction l with
  | nil => intro uc s; simp [create_agent_go]
  | cons a rest ih =>
    intro uc s
    simp only [create_agent_go]
    by_cases hk : truthy s.api_key
    · simp only [hk, if_true]
      cases htry : agentTry (aScript a) a uScript uc s with
      | success b s2 uc2 => simp [htry]
      | continueLoop s2 uc2 =>
        simp only [htry, List.length_cons]
        exact Nat.succ_le_succ (ih uc2 s2)
      | exc e s2 uc2 =>
        simp only [htry]
        by_cases ha : a == 2
        · simp [ha]
        · simp only [ha, if_false, List.length_cons]
          exact Nat.succ_le_succ (ih uc2 s2)
    · simp [hk]

/-- C1: create_agent performs at most 3 agent-creation attempts in total;
under the scripted behaviour [unauthorized, unauthorized, success] it returns
the body carrying the agent identifier after issuing exactly 2 additional
create_user calls, and under [unauthorized, unauthorized, unauthorized] it
raises the exhausted-attempts error. -/
theorem create_agent_bounded_retry_reprovision
    (s : ClientState) (h : truthy s.api_key = true) :
    (∀ (aS uS : Nat → ServiceEvent) (t : ClientState),
        (create_agent aS uS t).sent.length ≤ 3)
    ∧ (create_agent uuSuccessScript freshUserScript s).result
        = .returned (some [("agent_id", "agent-123")])
    ∧ (create_agent uuSuccessScript freshUserScript s).userCalls = 2
    ∧ (create_agent uuuScript freshUserScript s).result
        = .raised .keyInvalidAfterAttempts
    ∧ (create_agent uuuScript freshUserScript s).userCalls = 2 := by
  have hf : truthy (some "fresh-key") = true := rfl
  refine ⟨fun aS uS t => create_agent_go_sent_length_le aS uS [0, 1, 2] 0 t,
    ?_, ?_, ?_, ?_⟩ <;>
    simp [create_agent, create_agent_go, agentTry, uuSuccessScript, uuuScript,
      freshUserScript, unauthorizedEv, agentOkEv, userOkEv, handle_response,
      create_user, lookupField, h, hf]

/-- C2: generate_completion with max_retries = 3 under the scripted sequence
[not-found, not-found, success] returns the third response after exactly two
fixed 5-unit inter-attempt delays; when every attempt carries the not-found
signature it raises the agent-not-found error after exhausting the
retries. -/
theorem generate_completion_retry_fixed_delay
    (s : ClientState) (k a p : String) (h : truthy s.api_key = true) :
    (generate_completion s nnSuccessScript k a p 3).result
        = .returned (some [("response", "Paris")])
    ∧ (generate_completion s nnSuccessScript k a p 3).delays = [5, 5]
    ∧ (generate_completion s nnSuccessScript k a p 3).sent.length = 3
    ∧ (generate_completion s nnnScript k a p 3).result
        = .raised (.agentNotFound a)
    ∧ (generate_completion s nnnScript k a p 3).delays = [5, 5] := by
  have hr : List.range ((3 : Int).toNat) = [0, 1, 2] := rfl
  have hs1 : pyStartsWith "Error processing completion: 404: Agent not found"
      notFoundSig = true := by decide
  have hs2 : pyStartsWith "" notFoundSig = false := by decide
  refine ⟨?_, ?_, ?_, ?_, ?_⟩ <;>
    simp [generate_completion, h, hr, generate_completion_go, nnSuccessScript,
      nnnScript, notFoundEv, completionOkEv, handle_response, lookupField,
      hs1, hs2]

/-- Witness for C1 at the concrete state s0. -/
theorem create_agent_bounded_retry_reprovision_w :
    truthy s0.api_key = true
    ∧ (create_agent uuSuccessScript freshUserScript s0).result
        = .returned (some [("agent_id", "agent-123")])
    ∧ (create_agent uuSuccessScript freshUserScript s0).userCalls = 2 := by
  have h := create_agent_bounded_retry_reprovision s0 (by decide)
  exact ⟨by decide, h.2.1, h.2.2.1⟩

/-- Witness for C2 at concrete arguments. -/
theorem generate_completion_retry_fixed_delay_w :
    truthy s0.api_key = true
    ∧ (generate_completion s0 nnSuccessScript "key" "agent-1" "hi" 3).result
        = .returned (some [("response", "Paris")])
    ∧ (generate_completion s0 nnSuccessScript "key" "agent-1" "hi" 3).delays
        = [5, 5] := by
  have h := generate_completion_retry_fixed_delay s0 "key" "agent-1" "hi"
    (by decide)
  exact ⟨by decide, h.1, h.2.1⟩

/-- C3 counterexample: under the script [malformed, success, success] with a
valid stored credential, create_agent does not fail on the malformed response
of attempt 0: it performs a further attempt and returns the success of
attempt 1, having sent 2 agent-creation requests. -/
theorem create_agent_malformed_retries_cex :
    (create_agent malformedThenOkScript freshUserScript s0).result
        = .returned (some [("agent_id", "agent-123")])
    ∧ (create_agent malformedThenOkScript freshUserScript s0).sent.length = 2
    ∧ (create_agent malformedThenOkScript freshUserScript s0).userCalls
        = 0 := by
  refine ⟨?_, ?_, ?_⟩ <;> rfl

/-- C3 amended: a malformed response (parseable body lacking agent_id, status
not 401) raises the malformed-response error inside the attempt, but the
attempt-level handler swallows it on non-final attempts and retries; only
when it occurs on the final attempt does create_agent fail with the
malformed-response error, so with every attempt malformed it sends all 3
requests, issues no create_user call, and raises that error. -/
theorem create_agent_malformed_final_attempt
    (aS uS : Nat → ServiceEvent) (s : ClientState)
    (h : truthy s.api_key = true)
    (h0 : IsMalformedAttempt (aS 0)) (h1 : IsMalformedAttempt (aS 1))
    (h2 : IsMalformedAttempt (aS 2)) :
    (create_agent aS uS s).result = .raised .noAgentId
    ∧ (create_agent aS uS s).sent.length = 3
    ∧ (create_agent aS uS s).userCalls = 0 := by
  obtain ⟨r0, b0, he0, hh0, hl0, hs0⟩ := h0
  obtain ⟨r1, b1, he1, hh1, hl1, hs1⟩ := h1
  obtain ⟨r2, b2, he2, hh2, hl2, hs2⟩ := h2
  have hb0 : (r0.status_code == 401) = false := by simpa using hs0
  have hb1 : (r1.status_code == 401) = false := by simpa using hs1
  have hb2 : (r2.status_code == 401) = false := by simpa using hs2
  have ht0 : agentTry (aS 0) 0 uS 0 s = .exc .noAgentId s 0 := by
    simp [he0, agentTry, hh0, hl0, hb0]
  have ht1 : agentTry (aS 1) 1 uS 0 s = .exc .noAgentId s 0 := by
    simp [he1, agentTry, hh1, hl1, hb1]
  have ht2 : agentTry (aS 2) 2 uS 0 s = .exc .noAgentId s 0 := by
    simp [he2, agentTry, hh2, hl2, hb2]
  refine ⟨?_, ?_, ?_⟩ <;>
    simp [create_agent, create_agent_go, h, ht0, ht1, ht2]

/-- Witness for C3's amended theorem: every attempt answers with the concrete
malformed 200 response. -/
theorem create_agent_malformed_final_attempt_w :
    truthy s0.api_key = true
    ∧ IsMalformedAttempt malformedEv
    ∧ (create_agent (fun _ => malformedEv) freshUserScript s0).result
        = .raised .noAgentId := by
  have hm : IsMalformedAttempt malformedEv :=
    ⟨⟨200, "body", some [("detail", "Internal error")]⟩,
     [("detail", "Internal error")], rfl, rfl, by decide, by decide⟩
  exact ⟨by decide, hm,
    (create_agent_malformed_final_attempt _ _ s0 (by decide) hm hm hm).1⟩

/-- C4 counterexample: create_api_key invoked with no stored credential does
not fail with the no-credential precondition error: it sends one request
whose api-key header is absent and returns the scripted response as a
success. -/
theorem create_api_key_no_precondition_cex :
    (create_api_key keyOkEv noKeyState).sentHeaders = [none]
    ∧ (create_api_key keyOkEv noKeyState).result
        = .ok [("key", "fresh-key")] := by
  exact ⟨rfl, rfl⟩

/-- C4 amended: the no-credential precondition holds for create_agent and
generate_completion — with an empty or absent stored api_key each fails with
the no-credential error before sending any request — but create_api_key
performs no such check: it always sends exactly one request carrying the
stored (possibly absent) credential header. -/
theorem credential_precondition_checked_ops
    (s : ClientState) (h : truthy s.api_key = false)
    (aS uS gS : Nat → ServiceEvent) (ev : ServiceEvent)
    (k a p : String) (mr : Int) :
    (create_agent aS uS s).result = .raised .noApiKey
    ∧ (create_agent aS uS s).sent = []
    ∧ (generate_completion s gS k a p mr).result = .raised .noApiKey
    ∧ (generate_completion s gS k a p mr).sent = []
    ∧ (create_api_key ev s).sentHeaders = [s.api_key] := by
  refine ⟨?_, ?_, ?_, ?_, ?_⟩
  · simp [create_agent, create_agent_go, h]
  · simp [create_agent, create_agent_go, h]
  · simp [generate_completion, h]
  · simp [generate_completion, h]
  · cases ev with
    | raiseEv e => rfl
    | respond r =>
      cases hh : handle_response r "API key creation" with
      | error e => simp [create_api_key, hh]
      | ok b => simp [create_api_key, hh]

/-- Witness for C4's amended theorem at an empty stored credential. -/
theorem credential_precondition_checked_ops_w :
    truthy noKeyState.api_key = false
    ∧ (create_agent uuuScript freshUserScript noKeyState).result
        = .raised .noApiKey
    ∧ (create_api_key keyOkEv noKeyState).sentHeaders
        = [noKeyState.api_key] := by
  have h := credential_precondition_checked_ops noKeyState (by decide)
    uuuScript freshUserScript nnnScript keyOkEv "k" "a" "p" 3
  exact ⟨by decide, h.1, h.2.2.2.2⟩

/-- C5 counterexample: a create_user attempt answered by a 400 response with
a parseable JSON body is returned as a success (and even installs the body
fields as credentials) instead of raising the user-creation-failed error. -/
theorem create_user_non2xx_success_cex :
    create_user badStatusJsonEv s0
      = (.ok [("api_key", "bad-key"), ("user_id", "bad-uid")],
         ⟨some "bad-key", some "bad-uid"⟩) := by
  rfl

/-- C5 amended: create_user wraps a transport exception, an empty body, or an
unparseable body in the single user-creation-failed error, without retrying
and leaving the state unchanged; but it never inspects the status code, so
any response with a parseable JSON body — non-2xx included — is returned as a
success. -/
theorem create_user_error_wrapping
    (ev : ServiceEvent) (s : ClientState) (e : ApiError)
    (hc : userAttemptCause ev = some e) :
    create_user ev s = (.error (.failedCreateUser e), s)
    ∧ ∀ (r : HttpResponse) (b : Body),
        handle_response r "User creation" = .ok b →
        (create_user (.respond r) s).1 = .ok b := by
  constructor
  · cases ev with
    | raiseEv e2 =>
      simp only [userAttemptCause, Option.some.injEq] at hc
      subst hc
      rfl
    | respond r =>
      simp only [userAttemptCause] at hc
      cases hh : handle_response r "User creation" with
      | error e2 =>
        rw [hh] at hc
        simp only [Option.some.injEq] at hc
        subst hc
        simp [create_user, hh]
      | ok b =>
        rw [hh] at hc
        simp at hc
  · intro r b hb
    simp [create_user, hb]

/-- Witness for C5's amended theorem on a transport failure. -/
theorem create_user_error_wrapping_w :
    userAttemptCause (.raiseEv (.transport "boom"))
        = some (.transport "boom")
    ∧ create_user (.raiseEv (.transport "boom")) s0
        = (.error (.failedCreateUser (.transport "boom")), s0) :=
  ⟨rfl, (create_user_error_wrapping (.raiseEv (.transport "boom")) s0
    (.transport "boom") rfl).1⟩

/-- C6: after a successful create_user call the stored api_key and user_id
are exactly the api_key and user_id fields of the response body. -/
theorem create_user_installs_response_fields
    (ev : ServiceEvent) (s sFin : ClientState) (body : Body)
    (h : create_user ev s = (.ok body, sFin)) :
    sFin.api_key = lookupField body "api_key"
    ∧ sFin.user_id = lookupField body "user_id" := by
  cases ev with
  | raiseEv e => simp [create_user] at h
  | respond r =>
    simp only [create_user] at h
    cases hh : handle_response r "User creation" with
    | error e => rw [hh] at h; simp at h
    | ok b =>
      rw [hh] at h
      simp only [Prod.mk.injEq, Except.ok.injEq] at h
      obtain ⟨hb, hs⟩ := h
      subst hb
      rw [← hs]
      exact ⟨rfl, rfl⟩

/-- Witness for C6 on a concrete successful create_user call. -/
theorem create_user_installs_response_fields_w :
    create_user (userOkEv "fresh-key" "fresh-uid") s0
      = (.ok [("api_key", "fresh-key"), ("user_id", "fresh-uid")],
         ⟨some "fresh-key", some "fresh-uid"⟩)
    ∧ (ClientState.mk (some "fresh-key") (some "fresh-uid")).api_key
        = lookupField [("api_key", "fresh-key"), ("user_id", "fresh-uid")]
            "api_key" := by
  refine ⟨rfl, ?_⟩
  exact (create_user_installs_response_fields (userOkEv "fresh-key"
    "fresh-uid") s0 _ _ rfl).1

/-- C7: with a transport exception scripted on every attempt, both retry
loops proceed past the exceptions of the non-final attempts (all 3 requests
are sent) and re-raise the final attempt's exception unchanged. -/
theorem transport_exception_retry_propagation
    (e0 e1 e2 : ApiError) (uS : Nat → ServiceEvent) (s : ClientState)
    (k a p : String) (h : truthy s.api_key = true) :
    (create_agent (raiseScript e0 e1 e2) uS s).result = .raised e2
    ∧ (create_agent (raiseScript e0 e1 e2) uS s).sent.length = 3
    ∧ (generate_completion s (raiseScript e0 e1 e2) k a p 3).result
        = .raised e2
    ∧ (generate_completion s (raiseScript e0 e1 e2) k a p 3).sent.length = 3
    ∧ (generate_completion s (raiseScript e0 e1 e2) k a p 3).delays
        = [5, 5] := by
  have hr : List.range ((3 : Int).toNat) = [0, 1, 2] := rfl
  refine ⟨?_, ?_, ?_, ?_, ?_⟩ <;>
    simp [create_agent, create_agent_go, agentTry, generate_completion,
      generate_completion_go, raiseScript, h, hr]

/-- Witness for C7 at concrete transport errors. -/
theorem transport_exception_retry_propagation_w :
    truthy s0.api_key = true
    ∧ (create_agent (raiseScript (.transport "a") (.transport "b")
        (.transport "c")) freshUserScript s0).result
        = .raised (.transport "c") := by
  have h := transport_exception_retry_propagation (.transport "a")
    (.transport "b") (.transport "c") freshUserScript s0 "k" "a" "p"
    (by decide)
  exact ⟨by decide, h.1⟩

/-- C8: a well-formed completion response whose detail field does not carry
the 404 signature is returned as-is as a terminal non-error result on
whatever attempt it arrives; in particular the script
[not-found, not-found, none-sentinel] terminates by returning the
none-sentinel body. -/
theorem generate_completion_returns_wellformed_asis
    (gS : Nat → ServiceEvent) (k a p : String) (mr : Int)
    (i : Nat) (rest : List Nat) (r : HttpResponse) (b : Body)
    (h1 : gS i = .respond r)
    (h2 : handle_response r "Completion generation" = .ok b)
    (h3 : pyStartsWith ((lookupField b "detail").getD "") notFoundSig
        = false) :
    generate_completion_go gS k a mr (i :: rest)
      = ⟨.returned (some b), [k.trim], []⟩
    ∧ (generate_completion s0 nnNoneScript k a p 3).result
      = .returned (some [("response", "None")])
    ∧ (generate_completion s0 nnNoneScript k a p 3).delays = [5, 5] := by
  have hr : List.range ((3 : Int).toNat) = [0, 1, 2] := rfl
  have hs1 : pyStartsWith "Error processing completion: 404: Agent not found"
      notFoundSig = true := by decide
  have hs0 : pyStartsWith "" notFoundSig = false := by decide
  refine ⟨?_, ?_, ?_⟩
  · simp [generate_completion_go, h1, h2, h3]
  · simp [generate_completion, hr, generate_completion_go, nnNoneScript,
      notFoundEv, noneSentinelEv, handle_response, lookupField, hs1, hs0, s0,
      truthy]
  · simp [generate_completion, hr, generate_completion_go, nnNoneScript,
      notFoundEv, noneSentinelEv, handle_response, lookupField, hs1, hs0, s0,
      truthy]

/-- Witness for C8 on the none-sentinel response arriving first. -/
theorem generate_completion_returns_wellformed_asis_w :
    (fun _ : Nat => noneSentinelEv) 0 = .respond ⟨200, "body",
      some [("response", "None")]⟩
    ∧ generate_completion_go (fun _ => noneSentinelEv) "key" "agent-1" 3
        [0, 1, 2]
      = ⟨.returned (some [("response", "None")]), ["key".trim], []⟩ := by
  refine ⟨rfl, ?_⟩
  exact (generate_completion_returns_wellformed_asis (fun _ => noneSentinelEv)
    "key" "agent-1" "hi" 3 0 [1, 2] ⟨200, "body", some [("response", "None")]⟩
    [("response", "None")] rfl rfl (by decide)).1

/-- C9: a parsed agent-creation response body containing an agent_id is
treated as success on the current attempt and returned, whatever the HTTP
status code; in particular a 401 response whose body carries an agent_id is
returned as a successful result. -/
theorem create_agent_agent_id_success_any_status
    (aS uS : Nat → ServiceEvent) (attempt : Nat) (rest : List Nat)
    (uc : Nat) (s : ClientState) (r : HttpResponse) (b : Body)
    (h : truthy s.api_key = true)
    (h1 : aS attempt = .respond r)
    (h2 : handle_response r "Agent creation" = .ok b)
    (h3 : (lookupField b "agent_id").isSome = true) :
    create_agent_go aS uS (attempt :: rest) uc s
      = ⟨.returned (some b), s, [(s.api_key.getD "").trim], uc⟩
    ∧ (create_agent (fun _ => agent401Ev) uS s).result
      = .returned (some [("agent_id", "agent-401")]) := by
  constructor
  · simp [create_agent_go, agentTry, h, h1, h2, h3]
  · simp [create_agent, create_agent_go, agentTry, agent401Ev,
      handle_response, lookupField, h]

/-- Witness for C9 on a concrete 5xx response carrying an agent_id. -/
theorem create_agent_agent_id_success_any_status_w :
    truthy s0.api_key = true
    ∧ (create_agent (fun _ => agent401Ev) freshUserScript s0).result
      = .returned (some [("agent_id", "agent-401")]) := by
  have h := create_agent_agent_id_success_any_status
    (fun _ => .respond ⟨500, "body", some [("agent_id", "agent-5")]⟩)
    freshUserScript 0 [1, 2] 0 s0 ⟨500, "body", some [("agent_id", "agent-5")]⟩
    [("agent_id", "agent-5")] (by decide) rfl rfl (by decide)
  exact ⟨by decide, h.2⟩

/-- C10: generate_completion called with a non-positive max_retries and a
non-empty stored credential sends no request, raises nothing, and returns
Python None. -/
theorem generate_completion_nonpositive_retries
    (s : ClientState) (gS : Nat → ServiceEvent) (k a p : String) (mr : Int)
    (h : truthy s.api_key = true) (hmr : mr ≤ 0) :
    (generate_completion s gS k a p mr).result = .returned none
    ∧ (generate_completion s gS k a p mr).sent = []
    ∧ (generate_completion s gS k a p mr).delays = [] := by
  have h0 : mr.toNat = 0 := Int.toNat_of_nonpos hmr
  refine ⟨?_, ?_, ?_⟩ <;>
    simp [generate_completion, h, h0, generate_completion_go]

/-- Witness for C10 at max_retries = -1. -/
theorem generate_completion_nonpositive_retries_w :
    truthy s0.api_key = true ∧ (-1 : Int) ≤ 0
    ∧ (generate_completion s0 nnnScript "k" "a" "p" (-1)).result
        = .returned none := by
  have h := generate_completion_nonpositive_retries s0 nnnScript "k" "a" "p"
    (-1) (by decide) (by decide)
  exact ⟨by decide, by decide, h.1⟩

end SwarmsApi
